import Mathlib

/- Verification development for the domain-analysis orchestration pipeline
   (src/main.py): email normalization and deduplication, cache-aside domain
   resolution, background batch execution with progress notifications, and
   session-scoped message delivery.

   Modelling conventions:
   * DataFrame cells are modelled after `astype(str)`: every cell is a string
     (pandas NaN becomes the string "nan", which the code folds into the
     missing forms).
   * The external collaborators (the DomainAnalyzer and the BigQuery client)
     are oracles: the store is a function from a domain to a `StoreView`
     (its answers to the freshness checks and the latest-record fetch) and
     the analysis computation is a function from an email to a record.
   * Timestamps, processing durations and the floating-point confidence score
     are not part of any claim and are elided from the record type.
   * An unexpected per-item fault in the batch loop is modelled by an
     `ItemSem.fault` marker: per the collaborator contracts, faults arise in
     the analyzer/store calls, all of which precede every counter update in
     the loop body; the websocket push swallows its own failures. -/

namespace DomainAnalysis

/- ### Character-level helpers for the cleaning pipeline
   (clean_email_dataframe, src/main.py lines 36-152) -/

/-- Whitespace characters: the ASCII class behind the pandas regex
backslash-s used at src/main.py line 92. -/
def isSpaceChar (c : Char) : Bool :=
  c == ' ' || c == '\t' || c == '\n' || c == '\r' || c.val == 11 || c.val == 12

/-- ASCII letter, the class a-zA-Z of the validation regex. -/
def isAlphaChar (c : Char) : Bool :=
  ('a' ≤ c && c ≤ 'z') || ('A' ≤ c && c ≤ 'Z')

/-- ASCII digit. -/
def isDigitChar (c : Char) : Bool :=
  '0' ≤ c && c ≤ '9'

/-- The local-part character class of the validation regex at line 99:
a-zA-Z0-9 and the punctuation dot, underscore, percent, plus, minus. -/
def isLocalChar (c : Char) : Bool :=
  isAlphaChar c || isDigitChar c || c == '.' || c == '_' || c == '%' || c == '+' || c == '-'

/-- The domain-part character class of the validation regex at line 99:
a-zA-Z0-9, dot and minus. -/
def isDomainChar (c : Char) : Bool :=
  isAlphaChar c || isDigitChar c || c == '.' || c == '-'

/-- Leading/trailing whitespace removal, `.str.strip()` at line 91. -/
def trimWs (l : List Char) : List Char :=
  ((l.dropWhile isSpaceChar).reverse.dropWhile isSpaceChar).reverse

/-- The characters of the literal "mailto:". -/
def mailtoChars : List Char := ['m', 'a', 'i', 'l', 't', 'o', ':']

/-- Removal of a leading "mailto:" (the anchored regex replace at line 94). -/
def dropMailto (l : List Char) : List Char :=
  if l.take 7 = mailtoChars then l.drop 7 else l

/-- Per-cell cleaning of src/main.py lines 90-96, in source order: strip
whitespace, delete remaining internal whitespace, lowercase, strip a leading
"mailto:", delete angle brackets. -/
def cleanCell (s : String) : String :=
  String.mk
    ((dropMailto (((trimWs s.toList).filter (fun c => !isSpaceChar c)).map Char.toLower)).filter
      (fun c => !(c == '<' || c == '>')))

/-- The domain side of the validation regex at line 99, after the at sign:
one or more domain characters, a literal dot, then two or more letters,
anchored at the end. A regex with backtracking accepts exactly when some
split of the text into these three parts exists, which is what the
existential over the cut position states. -/
def isDomainTail (l : List Char) : Bool :=
  (List.range l.length).any fun i =>
    let u := l.take i
    !u.isEmpty && u.all isDomainChar &&
      (match l.drop i with
       | '.' :: t => decide (2 ≤ t.length) && t.all isAlphaChar
       | _ => false)

/-- The full validation regex of line 99 (`str.match` with an end anchor in
the pattern, so a full match): a nonempty local part over `isLocalChar`, an
at sign, then `isDomainTail`. The local-part class excludes the at sign, so
the regex splits the text at its first at sign. -/
def isValidEmail (s : String) : Bool :=
  match s.toList.span (fun c => c != '@') with
  | (lp, '@' :: rest) => !lp.isEmpty && lp.all isLocalChar && isDomainTail rest
  | _ => false

/-- Splitting a character list at the at signs, Python `email.split('@')`. -/
def splitAtSign : List Char → List (List Char)
  | [] => [[]]
  | c :: rest =>
    let r := splitAtSign rest
    if c == '@' then [] :: r
    else (c :: r.headD []) :: r.tail

/-- Domain extraction, `email.split('@')[1]` at src/main.py lines 124 and 132
(and the analyzer's extractor used at lines 472 and 968, which the spec
section 4.2 fixes to the substring strictly after the first at sign). Every
caller passes an address that already carries an at sign, so the Python
index-1 access is total there; an at-sign-free input maps to the empty
string. -/
def extractDomain (email : String) : String :=
  String.mk (((splitAtSign email.toList).drop 1).headD [])

/- ### The Normalizer: clean_email_dataframe (src/main.py lines 36-152) -/

/-- The cleaning report of clean_email_dataframe (the `stats` dict built at
lines 47-56 and 145-150). -/
structure CleaningStats where
  total_rows : Nat
  email_column : String
  valid_emails : Nat
  invalid_emails : Nat
  duplicates_removed : Nat
  empty_rows : Nat
  bigquery_duplicates : Nat
  new_emails : Nat
deriving DecidableEq

/-- A tabular input: named columns in order, each a list of already-textual
cells (the model sits after `astype(str)` at line 78). -/
structure DataFrame where
  cols : List (String × List String)
deriving DecidableEq

/-- The textual missing forms replaced by NA at line 81. -/
def missingForms : List String := ["nan", "NaN", "None", "null", ""]

/-- The column-name keywords of line 60. -/
def email_keywords : List String := ["email", "e-mail", "mail", "address", "contact"]

/-- ASCII lowercase of a whole string, `col.lower()`. -/
def toLowerStr (s : String) : String :=
  String.mk (s.toList.map Char.toLower)

/-- Substring containment, the Python `keyword in col.lower()` test. -/
def strContainsSub (s sub : String) : Bool :=
  (List.range (s.toList.length + 1)).any fun i =>
    (s.toList.drop i).take sub.toList.length == sub.toList

/-- Column auto-detection at lines 58-70: the first column whose lowercased
name contains one of the keywords, else the first column; `none` only for a
table with no columns at all, where the Python index access raises. -/
def detectEmailColumn (names : List String) : Option String :=
  match names.find? (fun col => email_keywords.any fun kw => strContainsSub (toLowerStr col) kw) with
  | some c => some c
  | none => names.head?

/-- The values of the named column (first column of that name). -/
def columnValues (df : DataFrame) (col : String) : List String :=
  ((df.cols.find? (fun p => p.1 == col)).map Prod.snd).getD []

/-- Lines 81-103 applied to a column: drop the missing forms, clean every
cell, keep the cells matching the validation regex (duplicates still
present, order preserved). -/
def validEmailList (values : List String) : List String :=
  ((values.filter fun v => !missingForms.contains v).map cleanCell).filter isValidEmail

/-- First-occurrence-order deduplication with a duplicate counter, the
seen-set loop at src/main.py lines 106-115. Returns the surviving list and
the number of dropped repeats. -/
def dedupEmails (seen : List String) : List String → List String × Nat
  | [] => ([], 0)
  | e :: rest =>
    if seen.contains e then
      let p := dedupEmails seen rest
      (p.1, p.2 + 1)
    else
      let p := dedupEmails (e :: seen) rest
      (e :: p.1, p.2)

/-- clean_email_dataframe (src/main.py lines 36-152). The second-stage
filter takes the store's batched domain-existence answer as an oracle
`bq : Option (String → Bool)`; `none` covers both the absent client and the
except-branch at lines 140-143, which fall back to the full deduplicated
list identically (the batched store call at line 127 is the only fallible
statement of the stage, so the partial duplicate counter is still zero on
the fallback). `none` as overall result models the IndexError a
column-free table raises at line 70. -/
def clean_email_dataframe (df : DataFrame) (bq : Option (String → Bool)) :
    Option (List String × CleaningStats) :=
  match detectEmailColumn (df.cols.map Prod.fst) with
  | none => none
  | some col =>
    let values := columnValues df col
    let emptyRows := values.countP fun v => missingForms.contains v
    let cleaned := (values.filter fun v => !missingForms.contains v).map cleanCell
    let valid := validEmailList values
    let dd := dedupEmails [] valid
    let fb : List String × Nat :=
      match bq with
      | some existing =>
        if dd.1.isEmpty then (dd.1, 0)
        else (dd.1.filter (fun e => !existing (extractDomain e)),
              dd.1.countP fun e => existing (extractDomain e))
      | none => (dd.1, 0)
    some (fb.1,
      { total_rows := values.length
        email_column := col
        valid_emails := dd.1.length
        invalid_emails := cleaned.length - valid.length
        duplicates_removed := dd.2
        empty_rows := emptyRows
        bigquery_duplicates := fb.2
        new_emails := fb.1.length })

/- ### The analysis record and the collaborator oracles -/

/-- The AnalysisResult model of src/main.py lines 260-275, restricted to the
fields the specified behavior mentions (timestamps, processing duration and
the floating-point confidence score are elided). -/
structure AnalysisResult where
  original_email : String
  extracted_domain : String
  selected_url : Option String
  scraping_status : String
  website_summary : Option String
  selection_reasoning : Option String
  from_cache : Bool
  real_estate : String
  infrastructure : String
  industrial : String
deriving DecidableEq

/-- The durable store's answers for one domain: `fresh24` is
`check_domain_exists(domain, max_age_hours=24)` (the short window used at
lines 766 and 971), `freshLong` is `check_domain_exists(domain,
max_age_hours=525600)` (the ten-year window at line 476), and `latest` is
the head row of `query_domain_results(domain, limit=1)` at line 479 (`none`
for an empty frame), which the store contract fixes to the most recent
stored record for the domain. -/
structure StoreView where
  fresh24 : Bool
  freshLong : Bool
  latest : Option AnalysisResult
deriving DecidableEq

/- ### The Cache-Aside Analysis Service: process_email_analysis
   (src/main.py lines 463-498) -/

/-- What one resolution did: the record returned to the caller, whether the
external analysis computation ran (the executor call at line 489), and
whether a store insert was attempted (line 492; its success flag is only
logged, line 494). -/
structure ResolveOutcome where
  record : AnalysisResult
  invokedAnalysis : Bool
  insertAttempted : Bool
deriving DecidableEq

/-- process_email_analysis (src/main.py lines 463-498): extract the domain;
unless `force_refresh`, a positive long-window freshness check followed by a
nonempty fetch returns the fetched record marked `from_cache := true`
(dataframe_to_analysis_result with from_cache=True, line 481); every other
case, including an empty fetch despite the positive check, runs the
analysis, attempts the insert and returns the fresh record with
`from_cache := false`. -/
def process_email_analysis (store : String → StoreView) (analyze : String → AnalysisResult)
    (email : String) (force_refresh : Bool) : ResolveOutcome :=
  let domain := extractDomain email
  let cachedHit : Option AnalysisResult :=
    if !force_refresh && (store domain).freshLong then (store domain).latest else none
  match cachedHit with
  | some cached => ⟨{ cached with from_cache := true }, false, false⟩
  | none =>
    let fresh := analyze email
    ⟨{ fresh with from_cache := false }, true, true⟩

/- ### The request handlers for single and batch analysis
   (src/main.py lines 540-637) -/

/-- The reply of the single-email endpoint: a record, or the HTTPException
raised at line 561. -/
inductive SingleReply where
  | ok (result : AnalysisResult)
  | httpError (status_code : Nat) (detail : String)
deriving DecidableEq

/-- analyze_email (src/main.py lines 540-561): the awaited
process_email_analysis outcome is returned as-is; a raised failure is
re-raised as HTTP 500 with the failure text in the detail. The resolution
outcome (or its raised fault's text) is the `outcome` argument. -/
def analyze_email (outcome : Except String AnalysisResult) : SingleReply :=
  match outcome with
  | .ok r => .ok r
  | .error e => .httpError 500 ("Analysis failed: " ++ e)

/-- The statuses counted successful at lines 592 and 988. -/
def successStatuses : List String := ["success", "success_text", "success_fallback"]

/-- Membership in the success set. -/
def isSuccessStatus (st : String) : Bool := successStatuses.contains st

/-- The synthetic error record built at src/main.py lines 605-621 (the
elided timestamp/confidence fields aside). -/
def error_result (email msg : String) : AnalysisResult :=
  { original_email := email
    extracted_domain := "error"
    selected_url := none
    scraping_status := "error"
    website_summary := some ("Error: " ++ msg)
    selection_reasoning := some "Processing failed"
    from_cache := false
    real_estate := "Can't Say"
    infrastructure := "Can't Say"
    industrial := "Can't Say" }

/-- The reply of the batch endpoint (BatchAnalysisResult, lines 278-284;
the wall-clock processing time is elided). -/
structure BatchReply where
  results : List AnalysisResult
  total_processed : Nat
  successful : Nat
  failed : Nat
  from_cache : Nat
deriving DecidableEq

/-- The loop-carried state of batch_analyze_emails. -/
structure BatchAcc where
  results : List AnalysisResult
  successful : Nat
  failed : Nat
  from_cache : Nat
deriving DecidableEq

/-- One iteration of the loop at src/main.py lines 581-622: a returned
record is appended and classified by its status and cache flag; a raised
per-item failure is counted failed and appended as the synthetic
error_result. -/
def batchStep (resolve : String → Except String AnalysisResult) (acc : BatchAcc)
    (email : String) : BatchAcc :=
  match resolve email with
  | .ok r =>
    { results := acc.results ++ [r]
      successful := if isSuccessStatus r.scraping_status then acc.successful + 1 else acc.successful
      failed := if isSuccessStatus r.scraping_status then acc.failed else acc.failed + 1
      from_cache := if r.from_cache then acc.from_cache + 1 else acc.from_cache }
  | .error e =>
    { acc with results := acc.results ++ [error_result email e], failed := acc.failed + 1 }

/-- batch_analyze_emails (src/main.py lines 564-637): fold the per-email
step over the input list; `resolve` is the per-email outcome of the awaited
process_email_analysis call (a raised fault carried as its text). -/
def batch_analyze_emails (emails : List String)
    (resolve : String → Except String AnalysisResult) : BatchReply :=
  let acc := emails.foldl (batchStep resolve) ⟨[], 0, 0, 0⟩
  { results := acc.results
    total_processed := emails.length
    successful := acc.successful
    failed := acc.failed
    from_cache := acc.from_cache }

/- ### The Batch Runner: process_csv_emails_background
   (src/main.py lines 949-1032) -/

/-- The collaborators a batch run reads: the store oracle and the analysis
computation. -/
structure BatchEnv where
  store : String → StoreView
  analyze : String → AnalysisResult

/-- Whether the body of the per-item try block runs normally against the
collaborators, or raises an unexpected fault. Per the collaborator
contracts, a fault arises in the analyzer/store calls (lines 968-985), all
of which precede every counter update of the item. -/
inductive ItemSem where
  | fault
  | normal
deriving DecidableEq

/-- A notification sent through send_chat_message by the batch run: the
in-loop progress message of lines 996-1000 and the final summary of lines
1008-1027, each reduced to the counts its text and metadata carry (the
message text and the trailing result window are elided). -/
inductive BatchEvent where
  | progress (processed successful failed duplicates : Nat)
  | summary (total processed successful failed duplicates : Nat)
deriving DecidableEq

/-- The mutable state of the batch loop: the four counters of lines 959-962,
the emails for which the analysis computation was invoked (the executor
calls at line 977), and the notifications sent so far. -/
structure BatchState where
  processed : Nat
  successful : Nat
  failed : Nat
  duplicates : Nat
  invoked : List String
  events : List BatchEvent
deriving DecidableEq

/-- All counters zero, nothing invoked, nothing sent. -/
def initialBatchState : BatchState := ⟨0, 0, 0, 0, [], []⟩

/-- The loop body at src/main.py lines 965-1005 for one email. A fault is
caught by the except at lines 1002-1005: failed and processed increment,
nothing else. Otherwise: a domain fresh under the 24-hour window counts as
duplicate and the iteration continues (lines 971-974, skipping the progress
check); else the analysis computation runs, the record's status classifies
the item as successful or failed (line 988), processed increments, and when
processed is a multiple of ten or equals the total the progress
notification is sent (lines 996-1000). -/
def processCsvItem (env : BatchEnv) (total : Nat) (s : BatchState)
    (item : String × ItemSem) : BatchState :=
  match item.2 with
  | .fault => { s with failed := s.failed + 1, processed := s.processed + 1 }
  | .normal =>
    if (env.store (extractDomain item.1)).fresh24 then
      { s with duplicates := s.duplicates + 1, processed := s.processed + 1 }
    else
      let r := env.analyze item.1
      let s1 := { s with
        invoked := s.invoked ++ [item.1]
        successful := if isSuccessStatus r.scraping_status then s.successful + 1 else s.successful
        failed := if isSuccessStatus r.scraping_status then s.failed else s.failed + 1 }
      let s2 := { s1 with processed := s1.processed + 1 }
      if s2.processed % 10 == 0 || s2.processed == total then
        { s2 with events := s2.events ++
          [.progress s2.processed s2.successful s2.failed s2.duplicates] }
      else s2

/-- process_csv_emails_background (src/main.py lines 949-1032): fold the
loop body over the input (each email paired with whether its iteration
faults), then send the final summary notification. -/
def process_csv_emails_background (env : BatchEnv) (items : List (String × ItemSem)) :
    BatchState :=
  let total := items.length
  let s := items.foldl (processCsvItem env total) initialBatchState
  { s with events := s.events ++ [.summary total s.processed s.successful s.failed s.duplicates] }

/-- Item classified duplicate by the run: no fault, and the 24-hour check
answers fresh. -/
def isDupItem (env : BatchEnv) (it : String × ItemSem) : Bool :=
  match it.2 with
  | .fault => false
  | .normal => (env.store (extractDomain it.1)).fresh24

/-- Item classified successful: no fault, not 24-hour fresh, and the
analysis record's status is in the success set. -/
def isSuccessItem (env : BatchEnv) (it : String × ItemSem) : Bool :=
  match it.2 with
  | .fault => false
  | .normal =>
    !(env.store (extractDomain it.1)).fresh24 &&
      isSuccessStatus (env.analyze it.1).scraping_status

/-- Item counted failed: a fault, or an analyzed record whose status is
outside the success set. -/
def isFailedItem (env : BatchEnv) (it : String × ItemSem) : Bool :=
  match it.2 with
  | .fault => true
  | .normal =>
    !(env.store (extractDomain it.1)).fresh24 &&
      !isSuccessStatus (env.analyze it.1).scraping_status

/-- Item that reaches the analysis path (not a fault, not a duplicate): the
only items whose iteration reaches the in-loop progress check. -/
def isAnalyzedItem (env : BatchEnv) (it : String × ItemSem) : Bool :=
  match it.2 with
  | .fault => false
  | .normal => !(env.store (extractDomain it.1)).fresh24

/-- The processed counts carried by the progress notifications of an event
list, in emission order. -/
def progressVals : List BatchEvent → List Nat
  | [] => []
  | .progress p _ _ _ :: rest => p :: progressVals rest
  | .summary _ _ _ _ _ :: rest => progressVals rest

/- ### The Session Hub (src/main.py lines 341-423) -/

/-- A stored chat message, reduced to its type tag and content (ids and
timestamps elided). -/
structure ChatMessage where
  message_type : String
  content : String
deriving DecidableEq

/-- A live websocket handle: whether send_json currently succeeds, and what
has been delivered over it. -/
structure WsConn where
  alive : Bool
  sent : List String
deriving DecidableEq

/-- A ChatSession (src/main.py lines 341-348): the append-only message log
and the optional live connection handle. -/
structure ChatSession where
  messages : List ChatMessage
  websocket : Option WsConn
deriving DecidableEq

/-- The global chat_sessions table (line 374). -/
abbrev Sessions := String → Option ChatSession

/-- A freshly created session: empty log, no connection. -/
def emptyChatSession : ChatSession := ⟨[], none⟩

/-- get_or_create_session (src/main.py lines 397-401) viewed as the session
it yields for an id. -/
def get_or_create_session (ss : Sessions) (sid : String) : ChatSession :=
  (ss sid).getD emptyChatSession

/-- ChatSession.add_message (lines 350-359): append to the log. -/
def add_message (sess : ChatSession) (content mtype : String) : ChatSession :=
  { sess with messages := sess.messages ++ [⟨mtype, content⟩] }

/-- The guarded websocket push of send_chat_message (lines 409-421): no
handle means nothing to do; a dead handle's send raises and the except
swallows the failure, leaving all state as it was. -/
def pushToWebsocket (sess : ChatSession) (content : String) : ChatSession :=
  match sess.websocket with
  | none => sess
  | some conn =>
    if conn.alive then
      { sess with websocket := some { conn with sent := conn.sent ++ [content] } }
    else sess

/-- send_chat_message (src/main.py lines 404-423): get or create the
session, append a system message to its log, then attempt the websocket
push; the updated session replaces the table entry. -/
def send_chat_message (ss : Sessions) (sid content : String) : Sessions :=
  let sess := get_or_create_session ss sid
  let sess1 := pushToWebsocket (add_message sess content "system") content
  fun id => if id = sid then some sess1 else ss id

/- ### The upload endpoint: upload_csv_file (src/main.py lines 875-946) -/

/-- A notification the upload endpoint sends to the session, reduced to the
data its text carries: the wrong-extension rejection (line 888), the
no-new-emails report (lines 900-913, carrying the cleaning stats), the
processing summary before scheduling (lines 917-930), or the outer
except-branch failure (lines 942-946, also covering a table the cleaning
raises on). -/
inductive UploadNote where
  | badFileType
  | uploadFault
  | noNewEmails (stats : CleaningStats)
  | processingSummary (stats : CleaningStats)
deriving DecidableEq

/-- The endpoint's HTTP reply: the error-shaped dict with the notified text,
or the ok dict carrying the scheduled email count (lines 937-940). -/
inductive UploadReply where
  | errorReply (note : UploadNote)
  | okReply (total_emails : Nat)
deriving DecidableEq

/-- What one upload call did: the notifications sent to the session in
order, the email list handed to asyncio.create_task for the background run
(line 933) when one was scheduled, and the reply. -/
structure UploadOutcome where
  notes : List UploadNote
  background : Option (List String)
  response : UploadReply
deriving DecidableEq

/-- The `file.filename.endswith('.csv')` test at line 887. -/
def endsWithCsv (filename : String) : Bool :=
  filename.toList.reverse.take 4 == ['v', 's', 'c', '.']

/-- upload_csv_file (src/main.py lines 875-946): reject a non-CSV filename;
run the cleaning (a raise there lands in the outer except, which notifies
and returns an error); with no surviving email, notify the report and
return the error-shaped reply without scheduling anything; otherwise notify
the summary, schedule the background run over the surviving emails and
return the ok reply. -/
def upload_csv_file (filename : String) (df : DataFrame) (bq : Option (String → Bool)) :
    UploadOutcome :=
  if !endsWithCsv filename then
    ⟨[.badFileType], none, .errorReply .badFileType⟩
  else
    match clean_email_dataframe df bq with
    | none => ⟨[.uploadFault], none, .errorReply .uploadFault⟩
    | some (valid_emails, stats) =>
      if valid_emails.isEmpty then
        ⟨[.noNewEmails stats], none, .errorReply (.noNewEmails stats)⟩
      else
        ⟨[.processingSummary stats], some valid_emails, .okReply valid_emails.length⟩

/- ### Lemmas about the Normalizer -/

/-- The deduplication loop returns a sublist of its input. -/
theorem dedupEmails_sublist (seen : List String) (l : List String) :
    (dedupEmails seen l).1.Sublist l := by
  induction l generalizing seen with
  | nil => simp [dedupEmails]
  | cons e rest ih =>
    simp only [dedupEmails]
    split
    · exact (ih seen).trans (rest.sublist_cons_self e)
    · exact (ih (e :: seen)).cons₂ e

/-- Nothing the deduplication loop keeps was already in the seen set, and
the kept list has no repeats. -/
theorem dedupEmails_nodup_aux (seen : List String) (l : List String) :
    (dedupEmails seen l).1.Nodup ∧ ∀ x ∈ (dedupEmails seen l).1, ¬ x ∈ seen := by
  induction l generalizing seen with
  | nil => simp [dedupEmails]
  | cons e rest ih =>
    simp only [dedupEmails]
    split
    · exact ih seen
    · rename_i hnot
      obtain ⟨hnd, hmem⟩ := ih (e :: seen)
      refine ⟨List.nodup_cons.mpr ⟨fun hx => ?_, hnd⟩, ?_⟩
      · exact hmem e hx (List.mem_cons_self e seen)
      · intro x hx
        rcases List.mem_cons.mp hx with hxe | hxr
        · subst hxe
          intro hxs
          exact hnot (List.elem_iff.mpr hxs)
        · intro hxs
          exact hmem x hxr (List.mem_cons_of_mem e hxs)

/-- The survivor list of the deduplication loop has no repeats. -/
theorem dedupEmails_nodup (seen : List String) (l : List String) :
    (dedupEmails seen l).1.Nodup :=
  (dedupEmails_nodup_aux seen l).1

/-- Survivors and dropped repeats of the deduplication loop together
account for every input entry. -/
theorem dedupEmails_length (seen : List String) (l : List String) :
    (dedupEmails seen l).1.length + (dedupEmails seen l).2 = l.length := by
  induction l generalizing seen with
  | nil => simp [dedupEmails]
  | cons e rest ih =>
    simp only [dedupEmails]
    split
    · have := ih seen
      simp only [List.length_cons]
      omega
    · have := ih (e :: seen)
      simp only [List.length_cons]
      omega

/-- The survivors of the deduplication loop stand in strictly increasing
order of their first indices in the input: the loop keeps first
occurrences in position order. -/
theorem dedupEmails_pairwise_firstIdx (seen : List String) (l : List String) :
    (dedupEmails seen l).1.Pairwise (fun a b => l.indexOf a < l.indexOf b) := by
  induction l generalizing seen with
  | nil => simp [dedupEmails]
  | cons e rest ih =>
    simp only [dedupEmails]
    split
    · rename_i hcont
      have he : e ∈ seen := List.elem_iff.mp hcont
      have hmem := (dedupEmails_nodup_aux seen rest).2
      refine List.Pairwise.imp_of_mem ?_ (ih seen)
      intro a b ha hb hab
      have hae : a ≠ e := fun hx => hmem a ha (by rw [hx]; exact he)
      have hbe : b ≠ e := fun hx => hmem b hb (by rw [hx]; exact he)
      rw [List.indexOf_cons_ne rest (Ne.symm hae), List.indexOf_cons_ne rest (Ne.symm hbe)]
      omega
    · have hmem := (dedupEmails_nodup_aux (e :: seen) rest).2
      refine List.pairwise_cons.mpr ⟨?_, ?_⟩
      · intro b hb
        have hbe : b ≠ e := fun hx => hmem b hb (by rw [hx]; exact List.mem_cons_self e seen)
        rw [List.indexOf_cons_self, List.indexOf_cons_ne rest (Ne.symm hbe)]
        omega
      · refine List.Pairwise.imp_of_mem ?_ (ih (e :: seen))
        intro a b ha hb hab
        have hae : a ≠ e := fun hx => hmem a ha (by rw [hx]; exact List.mem_cons_self e seen)
        have hbe : b ≠ e := fun hx => hmem b hb (by rw [hx]; exact List.mem_cons_self e seen)
        rw [List.indexOf_cons_ne rest (Ne.symm hae), List.indexOf_cons_ne rest (Ne.symm hbe)]
        omega

/-- The Normalizer's output has no repeated entry, is a subsequence of the
cleaned validated value list of the detected column, its survivors stand in
the position order of their first occurrences there (strictly increasing
first indices), and the dropped repeats are counted: duplicates_removed
plus the survivor count of the dedup stage equals the length of the
validated list. -/
theorem clean_email_dataframe_nodup_sublist (df : DataFrame) (bq : Option (String → Bool))
    (emails : List String) (stats : CleaningStats)
    (h : clean_email_dataframe df bq = some (emails, stats)) :
    emails.Nodup
    ∧ emails.Sublist (validEmailList (columnValues df stats.email_column))
    ∧ emails.Pairwise (fun a b =>
        (validEmailList (columnValues df stats.email_column)).indexOf a
          < (validEmailList (columnValues df stats.email_column)).indexOf b)
    ∧ stats.duplicates_removed + stats.valid_emails
        = (validEmailList (columnValues df stats.email_column)).length := by
  unfold clean_email_dataframe at h
  cases hcol : detectEmailColumn (df.cols.map Prod.fst) with
  | none => rw [hcol] at h; exact absurd h (by simp)
  | some col =>
    rw [hcol] at h
    simp only [Option.some.injEq, Prod.mk.injEq] at h
    obtain ⟨hemails, hstats⟩ := h
    subst hstats
    subst hemails
    dsimp only
    have hlen := dedupEmails_length [] (validEmailList (columnValues df col))
    cases bq with
    | none =>
      exact ⟨dedupEmails_nodup _ _, dedupEmails_sublist _ _,
        dedupEmails_pairwise_firstIdx _ _, by omega⟩
    | some existing =>
      by_cases he : (dedupEmails [] (validEmailList (columnValues df col))).1.isEmpty = true
      · simp only [he, if_pos]
        exact ⟨dedupEmails_nodup _ _, dedupEmails_sublist _ _,
          dedupEmails_pairwise_firstIdx _ _, by omega⟩
      · simp only [he, if_neg]
        exact ⟨(dedupEmails_nodup _ _).filter _,
          (List.filter_sublist _).trans (dedupEmails_sublist _ _),
          (dedupEmails_pairwise_firstIdx _ _).sublist (List.filter_sublist _),
          by omega⟩

/-- The concrete table of the spec's normalization scenario: one column
named "Contact Email" with five rows. -/
def sampleTable : DataFrame :=
  ⟨[("Contact Email", [" Foo@Bar.com ", "foo@bar.com", "bad-email", "", "mailto:x@y.co"])]⟩

/-- The cleaning report the scenario produces. -/
def sampleTableStats : CleaningStats :=
  { total_rows := 5
    email_column := "Contact Email"
    valid_emails := 2
    invalid_emails := 1
    duplicates_removed := 1
    empty_rows := 1
    bigquery_duplicates := 0
    new_emails := 2 }


theorem processCsvItem_processed (env : BatchEnv) (total : Nat) (s : BatchState)
    (it : String × ItemSem) :
    (processCsvItem env total s it).processed = s.processed + 1 := by
  obtain ⟨e, sem⟩ := it
  cases sem with
  | fault => rfl
  | normal =>
    simp only [processCsvItem]
    split
    · rfl
    · split <;> rfl

theorem processCsvItem_successful (env : BatchEnv) (total : Nat) (s : BatchState)
    (it : String × ItemSem) :
    (processCsvItem env total s it).successful
      = s.successful + (if isSuccessItem env it then 1 else 0) := by
  obtain ⟨e, sem⟩ := it
  cases sem with
  | fault => simp [processCsvItem, isSuccessItem]
  | normal =>
    simp only [processCsvItem, isSuccessItem]
    by_cases hf : (env.store (extractDomain e)).fresh24 = true
    · simp [hf]
    · rw [Bool.not_eq_true] at hf
      by_cases hs : isSuccessStatus (env.analyze e).scraping_status = true
      · simp only [hf, hs]
        simp
        split <;> rfl
      · rw [Bool.not_eq_true] at hs
        simp only [hf, hs]
        simp
        split <;> rfl

theorem processCsvItem_failed (env : BatchEnv) (total : Nat) (s : BatchState)
    (it : String × ItemSem) :
    (processCsvItem env total s it).failed
      = s.failed + (if isFailedItem env it then 1 else 0) := by
  obtain ⟨e, sem⟩ := it
  cases sem with
  | fault => simp [processCsvItem, isFailedItem]
  | normal =>
    simp only [processCsvItem, isFailedItem]
    by_cases hf : (env.store (extractDomain e)).fresh24 = true
    · simp [hf]
    · rw [Bool.not_eq_true] at hf
      by_cases hs : isSuccessStatus (env.analyze e).scraping_status = true
      · simp only [hf, hs]
        simp
        split <;> rfl
      · rw [Bool.not_eq_true] at hs
        simp only [hf, hs]
        simp
        split <;> rfl

theorem processCsvItem_duplicates (env : BatchEnv) (total : Nat) (s : BatchState)
    (it : String × ItemSem) :
    (processCsvItem env total s it).duplicates
      = s.duplicates + (if isDupItem env it then 1 else 0) := by
  obtain ⟨e, sem⟩ := it
  cases sem with
  | fault => simp [processCsvItem, isDupItem]
  | normal =>
    simp only [processCsvItem, isDupItem]
    by_cases hf : (env.store (extractDomain e)).fresh24 = true
    · simp [hf]
    · rw [Bool.not_eq_true] at hf
      simp only [hf]
      simp
      split <;> rfl

theorem processCsvItem_invoked (env : BatchEnv) (total : Nat) (s : BatchState)
    (it : String × ItemSem) :
    (processCsvItem env total s it).invoked
      = s.invoked ++ (if isAnalyzedItem env it then [it.1] else []) := by
  obtain ⟨e, sem⟩ := it
  cases sem with
  | fault => simp [processCsvItem, isAnalyzedItem]
  | normal =>
    simp only [processCsvItem, isAnalyzedItem]
    by_cases hf : (env.store (extractDomain e)).fresh24 = true
    · simp [hf]
    · rw [Bool.not_eq_true] at hf
      simp only [hf]
      simp
      split <;> rfl

theorem processCsvItem_events (env : BatchEnv) (total : Nat) (s : BatchState)
    (it : String × ItemSem) :
    (processCsvItem env total s it).events = s.events ++
      (if isAnalyzedItem env it && ((s.processed + 1) % 10 == 0 || s.processed + 1 == total)
       then [BatchEvent.progress (s.processed + 1)
               (processCsvItem env total s it).successful
               (processCsvItem env total s it).failed
               (processCsvItem env total s it).duplicates]
       else []) := by
  obtain ⟨e, sem⟩ := it
  cases sem with
  | fault => simp [processCsvItem, isAnalyzedItem]
  | normal =>
    simp only [processCsvItem, isAnalyzedItem]
    by_cases hf : (env.store (extractDomain e)).fresh24 = true
    · simp [hf]
    · rw [Bool.not_eq_true] at hf
      simp only [hf]
      simp only [Bool.not_false, Bool.true_and]
      by_cases hemit : ((s.processed + 1) % 10 == 0 || s.processed + 1 == total) = true
      · simp [hemit]
      · simp [hemit]



theorem foldl_batch_counts (env : BatchEnv) (total : Nat) (items : List (String × ItemSem)) :
    ∀ s : BatchState,
      (items.foldl (processCsvItem env total) s).processed = s.processed + items.length ∧
      (items.foldl (processCsvItem env total) s).successful
        = s.successful + items.countP (isSuccessItem env) ∧
      (items.foldl (processCsvItem env total) s).failed
        = s.failed + items.countP (isFailedItem env) ∧
      (items.foldl (processCsvItem env total) s).duplicates
        = s.duplicates + items.countP (isDupItem env) := by
  induction items with
  | nil => intro s; simp
  | cons it rest ih =>
    intro s
    obtain ⟨hp, hs, hf, hd⟩ := ih (processCsvItem env total s it)
    simp only [List.foldl_cons, List.countP_cons, List.length_cons]
    refine ⟨?_, ?_, ?_, ?_⟩
    · rw [hp, processCsvItem_processed]; omega
    · rw [hs, processCsvItem_successful]
      by_cases h : isSuccessItem env it = true <;> simp [h] <;> omega
    · rw [hf, processCsvItem_failed]
      by_cases h : isFailedItem env it = true <;> simp [h] <;> omega
    · rw [hd, processCsvItem_duplicates]
      by_cases h : isDupItem env it = true <;> simp [h] <;> omega

theorem progressVals_append (a b : List BatchEvent) :
    progressVals (a ++ b) = progressVals a ++ progressVals b := by
  induction a with
  | nil => rfl
  | cons ev rest ih => cases ev <;> simp [progressVals, ih]

theorem exactly_one_classification (env : BatchEnv) (it : String × ItemSem) :
    (if isSuccessItem env it then 1 else 0) + (if isFailedItem env it then 1 else 0)
      + (if isDupItem env it then 1 else 0) = 1 := by
  obtain ⟨e, sem⟩ := it
  cases sem with
  | fault => simp [isSuccessItem, isFailedItem, isDupItem]
  | normal =>
    by_cases hf : (env.store (extractDomain e)).fresh24 = true
    · simp [isSuccessItem, isFailedItem, isDupItem, hf]
    · rw [Bool.not_eq_true] at hf
      by_cases hs : isSuccessStatus (env.analyze e).scraping_status = true
      · simp [isSuccessItem, isFailedItem, isDupItem, hf, hs]
      · rw [Bool.not_eq_true] at hs
        simp [isSuccessItem, isFailedItem, isDupItem, hf, hs]



theorem processCsvItem_progMono (env : BatchEnv) (total : Nat) (s : BatchState)
    (it : String × ItemSem)
    (hpw : (progressVals s.events).Pairwise (· < ·))
    (hle : ∀ v ∈ progressVals s.events, v ≤ s.processed) :
    (progressVals (processCsvItem env total s it).events).Pairwise (· < ·) ∧
      ∀ v ∈ progressVals (processCsvItem env total s it).events,
        v ≤ (processCsvItem env total s it).processed := by
  rw [processCsvItem_events, progressVals_append, processCsvItem_processed]
  by_cases hemit : (isAnalyzedItem env it
      && ((s.processed + 1) % 10 == 0 || s.processed + 1 == total)) = true
  · simp only [hemit, if_pos]
    constructor
    · rw [List.pairwise_append]
      refine ⟨hpw, by simp [progressVals], ?_⟩
      intro a ha b hb
      simp [progressVals] at hb
      subst hb
      exact Nat.lt_succ_of_le (hle a ha)
    · intro v hv
      rcases List.mem_append.mp hv with h1 | h2
      · exact Nat.le_succ_of_le (hle v h1)
      · simp [progressVals] at h2
        omega
  · simp only [hemit]
    simp only [Bool.false_eq_true, if_false, progressVals, List.append_nil]
    exact ⟨hpw, fun v hv => Nat.le_succ_of_le (hle v hv)⟩

theorem foldl_batch_progMono (env : BatchEnv) (total : Nat)
    (items : List (String × ItemSem)) :
    ∀ s : BatchState,
      (progressVals s.events).Pairwise (· < ·) →
      (∀ v ∈ progressVals s.events, v ≤ s.processed) →
      (progressVals (items.foldl (processCsvItem env total) s).events).Pairwise (· < ·) ∧
        ∀ v ∈ progressVals (items.foldl (processCsvItem env total) s).events,
          v ≤ (items.foldl (processCsvItem env total) s).processed := by
  induction items with
  | nil => intro s h1 h2; exact ⟨h1, h2⟩
  | cons it rest ih =>
    intro s h1 h2
    obtain ⟨h1s, h2s⟩ := processCsvItem_progMono env total s it h1 h2
    exact ih (processCsvItem env total s it) h1s h2s

theorem batch_progress_pairwise (env : BatchEnv) (items : List (String × ItemSem)) :
    (progressVals (process_csv_emails_background env items).events).Pairwise (· < ·) := by
  unfold process_csv_emails_background
  simp only [progressVals_append]
  have := foldl_batch_progMono env items.length items initialBatchState
    (by simp [initialBatchState, progressVals]) (by simp [initialBatchState, progressVals])
  simpa [progressVals] using this.1


/-- The classification predicates split every item exactly one way. -/
theorem countP_classification (env : BatchEnv) (items : List (String × ItemSem)) :
    items.countP (isSuccessItem env) + items.countP (isFailedItem env)
      + items.countP (isDupItem env) = items.length := by
  induction items with
  | nil => simp
  | cons it rest ih =>
    simp only [List.countP_cons, List.length_cons]
    have := exactly_one_classification env it
    omega

/-- The final counters of a batch run count the items of each
classification; processed counts them all. -/
theorem batch_final_counts (env : BatchEnv) (items : List (String × ItemSem)) :
    (process_csv_emails_background env items).processed = items.length
    ∧ (process_csv_emails_background env items).successful
        = items.countP (isSuccessItem env)
    ∧ (process_csv_emails_background env items).failed
        = items.countP (isFailedItem env)
    ∧ (process_csv_emails_background env items).duplicates
        = items.countP (isDupItem env) := by
  obtain ⟨hp, hs, hf, hd⟩ := foldl_batch_counts env items.length items initialBatchState
  unfold process_csv_emails_background
  refine ⟨?_, ?_, ?_, ?_⟩
  · simpa [initialBatchState] using hp
  · simpa [initialBatchState] using hs
  · simpa [initialBatchState] using hf
  · simpa [initialBatchState] using hd

/-- A record a concrete store can hold and a concrete analyzer can return. -/
def sampleRecord : AnalysisResult :=
  { original_email := "old@b.co"
    extracted_domain := "b.co"
    selected_url := some "https://b.co"
    scraping_status := "success"
    website_summary := some "a summary"
    selection_reasoning := some "top result"
    from_cache := false
    real_estate := "Yes"
    infrastructure := "No"
    industrial := "No" }

/-- A store that reports every domain fresh under both windows. -/
def allFreshStore : String → StoreView := fun _ => ⟨true, true, some sampleRecord⟩

/-- A batch environment over `allFreshStore`. -/
def allFreshEnv : BatchEnv := ⟨allFreshStore, fun _ => sampleRecord⟩

/-- A store that reports every domain stale under the 24-hour window but
fresh under the long window, with a stored record to serve. -/
def longFreshStore : String → StoreView := fun _ => ⟨false, true, some sampleRecord⟩

/-- A batch environment over `longFreshStore`. -/
def longFreshEnv : BatchEnv := ⟨longFreshStore, fun _ => sampleRecord⟩

/- ### The claims -/

/-- C1: over any batch run, the final summary notification carries counts
with successful + failed + duplicates = processed and processed = N, and
each item increments exactly one of the three classification counters and
the processed counter exactly once. -/
theorem c1_batch_summary_counts (env : BatchEnv) (items : List (String × ItemSem)) :
    (process_csv_emails_background env items).processed = items.length
    ∧ (process_csv_emails_background env items).successful
        + (process_csv_emails_background env items).failed
        + (process_csv_emails_background env items).duplicates
      = (process_csv_emails_background env items).processed
    ∧ (process_csv_emails_background env items).events.getLast?
      = some (.summary items.length
          (process_csv_emails_background env items).processed
          (process_csv_emails_background env items).successful
          (process_csv_emails_background env items).failed
          (process_csv_emails_background env items).duplicates)
    ∧ ∀ (total : Nat) (s : BatchState) (it : String × ItemSem),
        (processCsvItem env total s it).processed = s.processed + 1
        ∧ (processCsvItem env total s it).successful
            = s.successful + (if isSuccessItem env it then 1 else 0)
        ∧ (processCsvItem env total s it).failed
            = s.failed + (if isFailedItem env it then 1 else 0)
        ∧ (processCsvItem env total s it).duplicates
            = s.duplicates + (if isDupItem env it then 1 else 0)
        ∧ (if isSuccessItem env it then 1 else 0) + (if isFailedItem env it then 1 else 0)
            + (if isDupItem env it then 1 else 0) = 1 := by
  obtain ⟨hp, hs, hf, hd⟩ := batch_final_counts env items
  have hsum := countP_classification env items
  refine ⟨hp, ?_, ?_, ?_⟩
  · rw [hp, hs, hf, hd]
    exact hsum
  · unfold process_csv_emails_background
    simp
  · intro total s it
    exact ⟨processCsvItem_processed env total s it,
      processCsvItem_successful env total s it,
      processCsvItem_failed env total s it,
      processCsvItem_duplicates env total s it,
      exactly_one_classification env it⟩

/-- C2 counterexample: a one-email run whose sole item is classified
duplicate sends no progress notification at all, although its processed
counter reaches N = 1 (the claim demands a progress notification whenever
the counter reaches N, regardless of the item's classification). -/
theorem c2_counterexample :
    progressVals (process_csv_emails_background allFreshEnv
        [("a@b.co", ItemSem.normal)]).events = []
    ∧ (process_csv_emails_background allFreshEnv [("a@b.co", ItemSem.normal)]).events
      = [.summary 1 1 0 0 1]
    ∧ (process_csv_emails_background allFreshEnv [("a@b.co", ItemSem.normal)]).processed = 1
    ∧ [("a@b.co", ItemSem.normal)].length = 1 :=
  ⟨rfl, rfl, rfl, rfl⟩

/-- C2 amended: a progress notification is emitted after an item exactly
when that item reached the analysis path (it was classified successful or
failed, not duplicate and not a fault) and the incremented processed
counter is a multiple of 10 or equals N; the processed counts carried by
the progress notifications of one run are strictly increasing. -/
theorem c2_progress_cadence (env : BatchEnv) :
    (∀ (total : Nat) (s : BatchState) (it : String × ItemSem),
      (processCsvItem env total s it).events = s.events ++
        (if isAnalyzedItem env it && ((s.processed + 1) % 10 == 0 || s.processed + 1 == total)
         then [BatchEvent.progress (s.processed + 1)
                 (processCsvItem env total s it).successful
                 (processCsvItem env total s it).failed
                 (processCsvItem env total s it).duplicates]
         else []))
    ∧ ∀ items : List (String × ItemSem),
        (progressVals (process_csv_emails_background env items).events).Pairwise (· < ·) :=
  ⟨fun total s it => processCsvItem_events env total s it,
   fun items => batch_progress_pairwise env items⟩

/-- C3 counterexample: the store reports domain b.co fresh under the long
window, yet the batch run over the single email a@b.co invokes the external
analysis computation for it (the run checks only the 24-hour window and
then calls the analyzer directly), whereas the Cache-Aside Analysis Service
on the same store would not have invoked the computation. -/
theorem c3_counterexample :
    (longFreshStore (extractDomain "a@b.co")).freshLong = true
    ∧ (process_csv_emails_background longFreshEnv [("a@b.co", ItemSem.normal)]).invoked
      = ["a@b.co"]
    ∧ (process_email_analysis longFreshStore longFreshEnv.analyze "a@b.co" false).invokedAnalysis
      = false :=
  ⟨rfl, rfl, rfl⟩

/-- C3 amended: for every email of a batch run whose domain is not fresh
under the short 24-hour window (and whose iteration does not fault), the
run invokes the external analysis computation directly, bypassing the
Cache-Aside Analysis Service — so even a domain fresh under the long
window triggers a new invocation. -/
theorem c3_batch_bypasses_cache (env : BatchEnv) (total : Nat) (s : BatchState) (e : String)
    (h : (env.store (extractDomain e)).fresh24 = false) :
    (processCsvItem env total s (e, ItemSem.normal)).invoked = s.invoked ++ [e] := by
  rw [processCsvItem_invoked]
  simp [isAnalyzedItem, h]

/-- C3 amended, witness: the amended statement at the concrete long-fresh
store. -/
theorem c3_batch_bypasses_cache_witness :
    (processCsvItem longFreshEnv 1 initialBatchState ("a@b.co", ItemSem.normal)).invoked
      = initialBatchState.invoked ++ ["a@b.co"] :=
  c3_batch_bypasses_cache longFreshEnv 1 initialBatchState "a@b.co" rfl

/-- C5: an unexpected fault at any position of a batch run is caught at the
per-item boundary and counted failed, and every item before and after it
still contributes its own classification to the final counters — the run
never aborts. -/
theorem c5_fault_isolation (env : BatchEnv) (pre post : List (String × ItemSem)) (e : String) :
    (process_csv_emails_background env (pre ++ [(e, ItemSem.fault)] ++ post)).processed
        = pre.length + 1 + post.length
    ∧ (process_csv_emails_background env (pre ++ [(e, ItemSem.fault)] ++ post)).failed
        = pre.countP (isFailedItem env) + 1 + post.countP (isFailedItem env)
    ∧ (process_csv_emails_background env (pre ++ [(e, ItemSem.fault)] ++ post)).successful
        = pre.countP (isSuccessItem env) + post.countP (isSuccessItem env)
    ∧ (process_csv_emails_background env (pre ++ [(e, ItemSem.fault)] ++ post)).duplicates
        = pre.countP (isDupItem env) + post.countP (isDupItem env) := by
  have hfail : isFailedItem env (e, ItemSem.fault) = true := rfl
  have hsucc : isSuccessItem env (e, ItemSem.fault) = false := rfl
  have hdup : isDupItem env (e, ItemSem.fault) = false := rfl
  refine ⟨?_, ?_, ?_, ?_⟩
  · rw [(batch_final_counts env (pre ++ [(e, ItemSem.fault)] ++ post)).1]
    simp [List.length_append] <;> omega
  · rw [(batch_final_counts env (pre ++ [(e, ItemSem.fault)] ++ post)).2.2.1]
    simp [List.countP_append, List.countP_cons, hfail] <;> omega
  · rw [(batch_final_counts env (pre ++ [(e, ItemSem.fault)] ++ post)).2.1]
    simp [List.countP_append, List.countP_cons, hsucc] <;> omega
  · rw [(batch_final_counts env (pre ++ [(e, ItemSem.fault)] ++ post)).2.2.2]
    simp [List.countP_append, List.countP_cons, hdup] <;> omega

/-- The batch endpoint's result list maps each email to its resolution
outcome, a raised per-item failure becoming the synthetic error record. -/
theorem foldl_batchStep_results (resolve : String → Except String AnalysisResult)
    (emails : List String) : ∀ acc : BatchAcc,
    (emails.foldl (batchStep resolve) acc).results
      = acc.results ++ emails.map (fun e => match resolve e with
          | .ok r => r
          | .error m => error_result e m) := by
  induction emails with
  | nil => intro acc; simp
  | cons e rest ih =>
    intro acc
    simp only [List.foldl_cons, List.map_cons]
    rw [ih]
    cases hre : resolve e with
    | ok r => simp [batchStep, hre]
    | error m => simp [batchStep, hre]

/-- The websocket push attempt never alters the message log, whether no
handle is attached, the push succeeds, or the push raises and is
swallowed. -/
theorem pushToWebsocket_messages (sess : ChatSession) (content : String) :
    (pushToWebsocket sess content).messages = sess.messages := by
  cases hws : sess.websocket with
  | none => simp [pushToWebsocket, hws]
  | some conn =>
    simp only [pushToWebsocket, hws]
    split <;> rfl

/-- One notify call appends exactly one system message to the session's
log, whatever the connection and delivery state. -/
theorem send_chat_message_log (ss : Sessions) (sid content : String) :
    (get_or_create_session (send_chat_message ss sid content) sid).messages
      = (get_or_create_session ss sid).messages ++ [⟨"system", content⟩] := by
  unfold send_chat_message get_or_create_session
  simp [pushToWebsocket_messages, add_message]

/-- C4 counterexample: a failure in the single-email endpoint surfaces as a
raised HTTP 500 error, not as a returned synthetic error record (which the
claim demands of both callers). -/
theorem c4_counterexample :
    analyze_email (Except.error "boom") = SingleReply.httpError 500 "Analysis failed: boom"
    ∧ analyze_email (Except.error "boom") ≠ SingleReply.ok (error_result "a@b.co" "boom") :=
  ⟨rfl, by decide⟩

/-- C4 amended: only the batch caller converts a per-item failure into a
value — the synthetic record with status "error", domain "error", the
failure text in the summary and all three classifications "Can't Say" —
while the single-email endpoint re-raises the failure as an HTTP 500 error
response. -/
theorem c4_error_as_value (emails : List String)
    (resolve : String → Except String AnalysisResult) (email msg : String) :
    (batch_analyze_emails emails resolve).results
      = emails.map (fun e => match resolve e with
          | .ok r => r
          | .error m => error_result e m)
    ∧ (error_result email msg).scraping_status = "error"
    ∧ (error_result email msg).extracted_domain = "error"
    ∧ (error_result email msg).website_summary = some ("Error: " ++ msg)
    ∧ (error_result email msg).real_estate = "Can't Say"
    ∧ (error_result email msg).infrastructure = "Can't Say"
    ∧ (error_result email msg).industrial = "Can't Say"
    ∧ analyze_email (Except.error msg)
        = SingleReply.httpError 500 ("Analysis failed: " ++ msg) := by
  refine ⟨?_, rfl, rfl, rfl, rfl, rfl, rfl, rfl⟩
  unfold batch_analyze_emails
  simpa using foldl_batchStep_results resolve emails ⟨[], 0, 0, 0⟩

/-- C6: with forceRefresh false and the store reporting the domain fresh
under the long window, resolution returns the most recent stored record
marked cache-origin without invoking the analysis computation; an empty
fetch despite the positive check falls through to the miss path, which
invokes the analysis, attempts the persist and returns the fresh record
with cache-origin false. -/
theorem c6_cache_hit (store : String → StoreView) (analyze : String → AnalysisResult)
    (email : String) (h : (store (extractDomain email)).freshLong = true) :
    (∀ r, (store (extractDomain email)).latest = some r →
        process_email_analysis store analyze email false
          = ⟨{ r with from_cache := true }, false, false⟩)
    ∧ ((store (extractDomain email)).latest = none →
        process_email_analysis store analyze email false
          = ⟨{ analyze email with from_cache := false }, true, true⟩) := by
  constructor
  · intro r hr
    unfold process_email_analysis
    simp [h, hr]
  · intro hr
    unfold process_email_analysis
    simp [h, hr]

/-- C6 witness: the cache-hit branch at a concrete long-fresh store. -/
theorem c6_cache_hit_witness :
    process_email_analysis longFreshStore (fun _ => sampleRecord) "a@b.co" false
      = ⟨{ sampleRecord with from_cache := true }, false, false⟩ :=
  (c6_cache_hit longFreshStore (fun _ => sampleRecord) "a@b.co" rfl).1 sampleRecord rfl

/-- C7: the Normalizer's output list has no two string-equal entries, is a
subsequence of the cleaned valid values of the detected column, and its
survivors appear in the position order of their first occurrences there
(strictly increasing first indices — later repeats are dropped and
counted). -/
theorem c7_normalizer_order (df : DataFrame) (bq : Option (String → Bool))
    (emails : List String) (stats : CleaningStats)
    (h : clean_email_dataframe df bq = some (emails, stats)) :
    emails.Nodup
    ∧ emails.Sublist (validEmailList (columnValues df stats.email_column))
    ∧ emails.Pairwise (fun a b =>
        (validEmailList (columnValues df stats.email_column)).indexOf a
          < (validEmailList (columnValues df stats.email_column)).indexOf b)
    ∧ stats.duplicates_removed + stats.valid_emails
        = (validEmailList (columnValues df stats.email_column)).length :=
  clean_email_dataframe_nodup_sublist df bq emails stats h

/-- C7 witness: the property at the concrete scenario table. -/
theorem c7_normalizer_order_witness :
    (["foo@bar.com", "x@y.co"] : List String).Nodup
    ∧ (["foo@bar.com", "x@y.co"] : List String).Sublist
        (validEmailList (columnValues sampleTable sampleTableStats.email_column))
    ∧ (["foo@bar.com", "x@y.co"] : List String).Pairwise (fun a b =>
        (validEmailList (columnValues sampleTable sampleTableStats.email_column)).indexOf a
          < (validEmailList (columnValues sampleTable sampleTableStats.email_column)).indexOf b)
    ∧ sampleTableStats.duplicates_removed + sampleTableStats.valid_emails
        = (validEmailList (columnValues sampleTable sampleTableStats.email_column)).length :=
  c7_normalizer_order sampleTable none ["foo@bar.com", "x@y.co"] sampleTableStats (by decide)

/-- C8: the concrete normalization scenario: column "Contact Email" is
detected, the survivors are ["foo@bar.com", "x@y.co"] in that order, and
the report counts 1 invalid, 1 empty and 1 duplicate row. -/
theorem c8_scenario :
    clean_email_dataframe sampleTable none
      = some (["foo@bar.com", "x@y.co"], sampleTableStats) := by
  decide

/-- C9: notify appends the system message to the session log before and
independently of any delivery attempt (the push never alters the log), so
three notify calls with contents A, B, C leave A, B, C appended to the log
in that order, whatever the connection and delivery state. -/
theorem c9_notify_log_order (ss : Sessions) (sid a b c : String) :
    (∀ (sess : ChatSession) (content : String),
        (pushToWebsocket sess content).messages = sess.messages)
    ∧ (get_or_create_session
        (send_chat_message (send_chat_message (send_chat_message ss sid a) sid b) sid c)
        sid).messages
      = (get_or_create_session ss sid).messages
          ++ [⟨"system", a⟩, ⟨"system", b⟩, ⟨"system", c⟩] := by
  refine ⟨pushToWebsocket_messages, ?_⟩
  rw [send_chat_message_log, send_chat_message_log, send_chat_message_log]
  simp

/-- C10: a CSV upload whose normalization leaves no net-new email schedules
no background run, returns the error-shaped reply, and still notifies the
session with the cleaning report; a background run is scheduled exactly
when at least one email survives. -/
theorem c10_upload_gate (filename : String) (df : DataFrame) (bq : Option (String → Bool))
    (emails : List String) (stats : CleaningStats)
    (hcsv : endsWithCsv filename = true)
    (hclean : clean_email_dataframe df bq = some (emails, stats)) :
    (emails = [] →
      (upload_csv_file filename df bq).background = none
      ∧ (upload_csv_file filename df bq).response = .errorReply (.noNewEmails stats)
      ∧ (upload_csv_file filename df bq).notes = [.noNewEmails stats])
    ∧ ((upload_csv_file filename df bq).background.isSome ↔ emails ≠ [])
    ∧ (emails ≠ [] →
      (upload_csv_file filename df bq).background = some emails
      ∧ (upload_csv_file filename df bq).response = .okReply emails.length) := by
  unfold upload_csv_file
  simp only [hcsv, hclean, Bool.not_true, Bool.false_eq_true, if_false]
  by_cases he : emails.isEmpty = true
  · have hnil : emails = [] := List.isEmpty_iff.mp he
    subst hnil
    simp
  · have hne : emails ≠ [] := fun hn => he (by simp [hn])
    simp only [he, Bool.false_eq_true, if_false]
    simp [hne]

/-- The concrete upload table whose one value survives no cleaning step. -/
def noNewTable : DataFrame := ⟨[("email", ["bad"])]⟩

/-- The cleaning report `noNewTable` produces. -/
def noNewStats : CleaningStats := ⟨1, "email", 0, 1, 0, 0, 0, 0⟩

/-- C10 witness: the empty-survivor branch at a concrete upload. -/
theorem c10_upload_gate_witness :
    (upload_csv_file "t.csv" noNewTable none).background = none
    ∧ (upload_csv_file "t.csv" noNewTable none).response
        = UploadReply.errorReply (.noNewEmails noNewStats)
    ∧ (upload_csv_file "t.csv" noNewTable none).notes = [UploadNote.noNewEmails noNewStats] :=
  (c10_upload_gate "t.csv" noNewTable none [] noNewStats (by decide) (by decide)).1 rfl

end DomainAnalysis
